import Mathlib

/-!
Verification development for the ovpn-traffic-monitor repository
(file traffic_monitor.py).

The Python source is shallowly embedded as executable Lean functions:

* Python str.split(sep) on a single-character separator, str.replace,
  str.strip and sep.join are re-implemented over character lists by
  structural recursion (pySplit, pyReplace, pyStrip, pyJoin) so that every
  theorem can be settled by kernel evaluation.
* Python dicts keyed by strings are association lists (dictLookup,
  dictInsert, dictContains, dictKeys) with the usual insert-or-update-in-
  place semantics; insertion order of new keys is list order, as in Python.
* Randomness (uuid.uuid4) and OS process handles (subprocess.Popen) are
  modelled by counters in the state: each call to uuid4 consumes nextUuid,
  each successful process launch consumes nextPid.  startedPids records
  every process ever launched, terminatedPids every process whose
  terminate() was called.
* Calls to exit(1) and uncaught exceptions that escape a method are
  modelled by returning none.
-/

set_option autoImplicit false

namespace OvpnMonitor

/-- Character-list core of Python str.split on a single-character
separator: keeps empty fields, and the split of the empty string is a
single empty field. -/
def splitChar (sep : Char) : List Char → List (List Char)
  | [] => [[]]
  | c :: cs =>
    if c = sep then [] :: splitChar sep cs
    else
      match splitChar sep cs with
      | [] => [[c]]
      | g :: gs => (c :: g) :: gs

/-- Python s.split(sep) for a one-character separator. -/
def pySplit (sep : Char) (s : String) : List String :=
  (splitChar sep s.toList).map (fun cs => String.mk cs)

/-- Fuel-driven core of Python str.replace: replaces every non-overlapping
occurrence of old, scanning left to right.  The fuel is the length of the
scanned list, which suffices because each step consumes at least one
character. -/
def replaceFuel (old new : List Char) : Nat → List Char → List Char
  | 0, s => s
  | _ + 1, [] => []
  | fuel + 1, c :: cs =>
    if List.isPrefixOf old (c :: cs) then
      new ++ replaceFuel old new fuel (List.drop (old.length - 1) cs)
    else
      c :: replaceFuel old new fuel cs

/-- Python s.replace(old, new) for a non-empty old pattern; for the only
use site the degenerate empty-pattern case coincides with the identity,
which is what Python returns there as well (replacing the empty string by
the empty string). -/
def pyReplace (s old new : String) : String :=
  if old.toList = [] then s
  else String.mk (replaceFuel old.toList new.toList s.toList.length s.toList)

/-- Drops leading whitespace characters. -/
def dropLeadingWs : List Char → List Char
  | [] => []
  | c :: cs => if c.isWhitespace then dropLeadingWs cs else c :: cs

/-- Python s.strip(): removes leading and trailing whitespace. -/
def pyStrip (s : String) : String :=
  String.mk ((dropLeadingWs ((dropLeadingWs s.toList).reverse)).reverse)

/-- Joins character-list groups with a single separator character. -/
def joinChar (sep : Char) : List (List Char) → List Char
  | [] => []
  | [g] => g
  | g :: gs => g ++ sep :: joinChar sep gs

/-- Python sep.join(parts) for a one-character separator. -/
def pyJoin (sep : Char) (parts : List String) : String :=
  String.mk (joinChar sep (parts.map String.toList))

/-- Python dict lookup d[k], returning none where Python raises KeyError. -/
def dictLookup {α : Type} : List (String × α) → String → Option α
  | [], _ => none
  | (k', v) :: rest, k => if k' = k then some v else dictLookup rest k

/-- Python membership test: k in d. -/
def dictContains {α : Type} (d : List (String × α)) (k : String) : Bool :=
  (dictLookup d k).isSome

/-- Python dict assignment d[k] = v: updates the value in place if the key
is present, otherwise appends the new binding at the end. -/
def dictInsert {α : Type} : List (String × α) → String → α → List (String × α)
  | [], k, v => [(k, v)]
  | (k', v') :: rest, k, v =>
    if k' = k then (k, v) :: rest else (k', v') :: dictInsert rest k v

/-- Python dict deletion del d[k] (unused by the embedded code paths that
reach it, kept for completeness of the dict model). -/
def dictErase {α : Type} : List (String × α) → String → List (String × α)
  | [], _ => []
  | (k', v') :: rest, k =>
    if k' = k then rest else (k', v') :: dictErase rest k

/-- Python d.keys() in insertion order. -/
def dictKeys {α : Type} (d : List (String × α)) : List String :=
  d.map Prod.fst

/-- One value of the users_data registry of OpenVPNUserManager: the dict
literal written by update_user_data and add_user, with the uuid4 value
modelled as a Nat drawn from the state's uuid supply. -/
structure UserEntry where
  uuid : Nat
  virtual_ip : String
  real_ip : String
  common_name : String
deriving DecidableEq

/-- One value of the active_processes map of TCPDumpManager: the
process_data dict built by monitor_user_traffic, with the Popen handle
modelled as the pid drawn from the state's pid supply (the thread handle
carries no further state in the model). -/
structure ProcessData where
  pid : Nat
  virtual_ip : String
  uuid : Nat
  real_ip : String
deriving DecidableEq

/-- Combined mutable state of OpenVPNUserManager.users_data and
TCPDumpManager.active_processes, together with the supplies for uuid4 and
process launches and the event journals used to observe starts and
termination requests. -/
structure MonitorState where
  users_data : List (String × UserEntry)
  active_processes : List (String × ProcessData)
  nextUuid : Nat
  nextPid : Nat
  startedPids : List Nat
  terminatedPids : List Nat
deriving DecidableEq

/-- The exact header row tested by parse_openvpn_users. -/
def statusHeader : String := "Virtual Address,Common Name,Real Address,Last Ref"

/-- The exact trailer row tested by parse_openvpn_users. -/
def globalStats : String := "GLOBAL STATS"

/-- The port-stripping statement of parse_openvpn_users:
line.replace(line.split(',')[2], line.split(',')[2].split(':')[0]).
Returns none when the row has fewer than three comma-separated fields,
where Python raises IndexError (caught by the surrounding handler, which
exits). -/
def stripPortField (line : String) : Option String :=
  match (pySplit ',' line).get? 2 with
  | none => none
  | some f2 => some (pyReplace line f2 (((pySplit ':' f2).headD "")))

/-- Total companion of stripPortField used to state the parser theorem;
on every row that parse_openvpn_users actually collects the two agree. -/
def stripPortTotal (line : String) : String :=
  (stripPortField line).getD line

/-- The line scan of parse_openvpn_users: the include flag is set by the
exact header row, cleared by the exact trailer row, and rows are collected
(port-stripped) only while it is set.  Returns none when a collected row
raises IndexError, which the source turns into exit(1). -/
def collectLines : List String → Bool → Option (List String)
  | [], _ => some []
  | l :: rest, collecting =>
    if l = statusHeader then collectLines rest true
    else if collecting then
      if l = globalStats then collectLines rest false
      else
        match stripPortField l with
        | none => none
        | some l' => (collectLines rest collecting).map (fun r => l' :: r)
    else collectLines rest collecting

/-- OpenVPNUserManager.parse_openvpn_users on the already-read list of
lines of the status file: collects the rows inside the header/trailer
window, strips the port from the real-address field, and splits each
collected row on commas.  File-read failures (FileNotFoundError,
PermissionError), which the source turns into exit(1), are outside this
text-level model. -/
def parse_openvpn_users (lines : List String) : Option (List (List String)) :=
  (collectLines lines false).map (fun res => res.map (pySplit ','))

/-- The row accesses user[0], user[1], user[2] performed on a parsed row;
none models the IndexError raised when the row has fewer than three
fields. -/
def rowFields : List String → Option (String × String × String)
  | v :: c :: r :: _ => some (v, c, r)
  | _ => none

/-- OpenVPNUserManager.update_user_data on an explicit users list: for
every row it overwrites users_data[user[2]] with a fresh dict whose uuid
is a fresh uuid4 value — also when the key already exists.  The per-row
JSON file write only logs on IOError and does not affect this state; the
on-disk behaviour of that write is modelled separately by
directWriteSteps.  Returns none when a row raises IndexError, which
propagates out of the method. -/
def update_user_data : List (List String) → MonitorState → Option MonitorState
  | [], s => some s
  | u :: rest, s =>
    match rowFields u with
    | none => none
    | some (v, c, r) =>
      update_user_data rest
        { s with
          users_data := dictInsert s.users_data r
            { uuid := s.nextUuid, virtual_ip := v, real_ip := r, common_name := c },
          nextUuid := s.nextUuid + 1 }

/-- TCPDumpManager.monitor_user_traffic: unconditionally launches a
tcpdump process (the returncode == 1 test right after Popen never fires
for a freshly started process), starts and immediately joins the
traffic_logging thread, and then registers the process_data dict under
real_ip — overwriting any existing entry.  There is no membership guard
inside this method. -/
def monitor_user_traffic (user_uuid : Nat) (real_ip virtual_ip : String)
    (s : MonitorState) : MonitorState :=
  { s with
    nextPid := s.nextPid + 1,
    startedPids := s.nextPid :: s.startedPids,
    active_processes := dictInsert s.active_processes real_ip
      { pid := s.nextPid, virtual_ip := virtual_ip, uuid := user_uuid, real_ip := real_ip } }

/-- TCPDumpManager.stop_user_traffic_monitoring: a no-op when the address
is absent.  When it is present, process.terminate() is called and
recorded; the next statement, thread.stop(), raises AttributeError
because threading.Thread has no stop method, the surrounding handler
catches it and only logs a warning — so the deletion
del self.active_processes[user_ip] is never reached and the entry
survives. -/
def stop_user_traffic_monitoring (user_ip : String) (s : MonitorState) : MonitorState :=
  match dictLookup s.active_processes user_ip with
  | none => s
  | some pd => { s with terminatedPids := pd.pid :: s.terminatedPids }

/-- First loop of OpenVPNUserManager.update_user_monitoring: for each
parsed row it reads users_data[real_ip] (a KeyError or IndexError here is
caught by the surrounding handler and turned into exit(1), modelled as
none) and calls monitor_user_traffic — synchronously, via an immediately
joined thread — only when real_ip is not yet in active_processes. -/
def startMonitoringLoop : List (List String) → MonitorState → Option MonitorState
  | [], s => some s
  | u :: rest, s =>
    match rowFields u with
    | none => none
    | some (_, _, r) =>
      match dictLookup s.users_data r with
      | none => none
      | some e =>
        if dictContains s.active_processes r then startMonitoringLoop rest s
        else startMonitoringLoop rest (monitor_user_traffic e.uuid r e.virtual_ip s)

/-- Second loop of OpenVPNUserManager.update_user_monitoring: it iterates
over the parsed users list (not over active_processes); for each row it
looks up active_processes[user[2]] and logs on success, and on KeyError —
that is, exactly when the address is absent from active_processes — calls
stop_user_traffic_monitoring on that absent address, which is a no-op.
An IndexError on user[2] is caught by the surrounding handler and turned
into exit(1), modelled as none. -/
def stopMonitoringLoop : List (List String) → MonitorState → Option MonitorState
  | [], s => some s
  | u :: rest, s =>
    match rowFields u with
    | none => none
    | some (_, _, r) =>
      if dictContains s.active_processes r then stopMonitoringLoop rest s
      else stopMonitoringLoop rest (stop_user_traffic_monitoring r s)

/-- OpenVPNUserManager.update_user_monitoring driven by the lines of the
status file: parse, update the registry with the parsed list, then the
start loop and the stop loop. -/
def update_user_monitoring (lines : List String) (s : MonitorState) : Option MonitorState :=
  match parse_openvpn_users lines with
  | none => none
  | some users_list =>
    match update_user_data users_list s with
    | none => none
    | some s1 =>
      match startMonitoringLoop users_list s1 with
      | none => none
      | some s2 => stopMonitoringLoop users_list s2

/-- Destination extraction of one capture output line in
TCPDumpManager.traffic_logging: output.split(' ')[4].split('.'), then
'.'.join of all but the last dot-component, stripped.  Returns none where
Python raises IndexError, which the inner handler turns into continue
(the line is skipped). -/
def extract_website (output : String) : Option String :=
  match (pySplit ' ' output).get? 4 with
  | none => none
  | some f => some (pyStrip (pyJoin '.' ((pySplit '.' f).dropLast)))

/-- Outcome of one reverse-lookup attempt of socket.gethostbyaddr, as an
oracle supplied to the model: success, a socket.herror failure
(host not found), or any other lookup exception such as socket.gaierror. -/
inductive ResolveOutcome where
  | resolved (hostname : String)
  | hostNotFound
  | otherLookupError
deriving DecidableEq

/-- TCPDumpManager.get_hostname_from_ip: returns the hostname on success
and the marker N/A when socket.herror is raised — only socket.herror is
caught, so any other lookup exception propagates to the caller, modelled
as none. -/
def get_hostname_from_ip : ResolveOutcome → Option String
  | ResolveOutcome.resolved h => some h
  | ResolveOutcome.hostNotFound => some "N/A"
  | ResolveOutcome.otherLookupError => none

/-- A visit record as written by TrafficMonitorLogger.log_website_visit,
with the website argument in the website field (the source passes the
string website/hostname there). -/
structure VisitRecord where
  real_ip : String
  virtual_ip : String
  uuid : Nat
  website : String
deriving DecidableEq

/-- Effect of one capture output line inside the reader loop of
traffic_logging: skipped (continue), recorded (a visit record is
appended), or readerAborted — an exception escaped the line handling,
was caught by the handler wrapped around the whole while loop, and the
reader task returned. -/
inductive LineOutcome where
  | skipped
  | recorded (visit : VisitRecord)
  | readerAborted
deriving DecidableEq

/-- Per-line behaviour of TCPDumpManager.traffic_logging on a decoded
output line: extract the destination (an unparsable line is skipped);
discard the line when the destination equals the session's own
virtual_ip; otherwise resolve the hostname and append one visit record
with website/hostname.  An exception raised by the resolution step
escapes to the outer handler and ends the reader task. -/
def traffic_line_step (pd : ProcessData) (resolve : String → ResolveOutcome)
    (output : String) : LineOutcome :=
  match extract_website output with
  | none => LineOutcome.skipped
  | some website =>
    if website = pd.virtual_ip then LineOutcome.skipped
    else
      match get_hostname_from_ip (resolve website) with
      | none => LineOutcome.readerAborted
      | some h =>
        LineOutcome.recorded
          { real_ip := pd.real_ip, virtual_ip := pd.virtual_ip, uuid := pd.uuid,
            website := website ++ "/" ++ h }

/-- One atomic file-system step of a registry write: opening the users
file with mode w truncates it, then the json.dump call appends the
serialized mapping. -/
inductive WriteStep where
  | truncate
  | writeAll (content : String)
deriving DecidableEq

/-- Effect of one write step on the on-disk content. -/
def applyWriteStep (disk : String) : WriteStep → String
  | WriteStep.truncate => ""
  | WriteStep.writeAll c => disk ++ c

/-- Runs a sequence of write steps against the on-disk content. -/
def runWriteSteps : String → List WriteStep → String
  | disk, [] => disk
  | disk, stp :: rest => runWriteSteps (applyWriteStep disk stp) rest

/-- The step sequence performed by the registry writes of
update_user_data, add_user and delete_user: open(file, w) — which
truncates — followed by json.dump of the new mapping.  There is no
temporary file and no rename. -/
def directWriteSteps (content : String) : List WriteStep :=
  [WriteStep.truncate, WriteStep.writeAll content]

/-- On-disk content observed when the process crashes after the first k
steps of a write. -/
def crashDuringWrite (disk : String) (steps : List WriteStep) (k : Nat) : String :=
  runWriteSteps disk (steps.take k)

/-- Addresses of a parsed users list: the user[2] field of every row that
has one. -/
def snapshotAddresses (us : List (List String)) : List String :=
  us.filterMap (fun u => (rowFields u).map (fun t => t.2.2))

/-- Readiness of one row for the start loop: the row has its three
fields, its address has a registry entry, and a capture entry is already
present.  Used to state that the start loop is a no-op. -/
def rowReady (s : MonitorState) (u : List String) : Bool :=
  match rowFields u with
  | none => false
  | some (_, _, r) => (dictLookup s.users_data r).isSome && dictContains s.active_processes r

/-- Fixture: a supervisor state holding one live capture for the address
5.5.5.5 that the next snapshot no longer contains. -/
def c1State : MonitorState :=
  { users_data := [],
    active_processes :=
      [("5.5.5.5", { pid := 0, virtual_ip := "10.8.0.9", uuid := 9, real_ip := "5.5.5.5" })],
    nextUuid := 0, nextPid := 1, startedPids := [0], terminatedPids := [] }

/-- Fixture: a status snapshot whose only session has real address
1.1.1.1. -/
def c1Lines : List String := [statusHeader, "10.8.0.2,alice,1.1.1.1", globalStats]

/-- Fixture: a registry already holding an entry for 1.1.1.1 with uuid 0;
the next uuid4 value is 1. -/
def c2State : MonitorState :=
  { users_data :=
      [("1.1.1.1", { uuid := 0, virtual_ip := "10.8.0.2", real_ip := "1.1.1.1", common_name := "alice" })],
    active_processes := [], nextUuid := 1, nextPid := 0, startedPids := [], terminatedPids := [] }

/-- Fixture: a reconciliation tick whose session list still contains the
registered address 1.1.1.1. -/
def c2Users : List (List String) := [["10.8.0.2", "alice", "1.1.1.1"]]

/-- Fixture: a supervisor state with one live capture (pid 7) for
1.1.1.1. -/
def c3State : MonitorState :=
  { users_data := [],
    active_processes :=
      [("1.1.1.1", { pid := 7, virtual_ip := "10.8.0.2", uuid := 3, real_ip := "1.1.1.1" })],
    nextUuid := 0, nextPid := 8, startedPids := [7], terminatedPids := [] }

/-- Fixture: the section 8 example input of the specification, with rows
before the header and after the trailer. -/
def c4Lines : List String :=
  ["OpenVPN CLIENT LIST", "Updated,2024", statusHeader,
   "10.8.0.2,alice,203.0.113.5:54321,Mon Jan 1", globalStats, "Max bcast,0"]

/-- Fixture: a registry holding an entry for 9.9.9.9, an address the next
snapshot does not contain. -/
def c5State : MonitorState :=
  { users_data :=
      [("9.9.9.9", { uuid := 5, virtual_ip := "10.8.0.9", real_ip := "9.9.9.9", common_name := "bob" })],
    active_processes := [], nextUuid := 6, nextPid := 0, startedPids := [], terminatedPids := [] }

/-- Fixture: a snapshot session list containing only 1.1.1.1. -/
def c5Users : List (List String) := [["10.8.0.2", "alice", "1.1.1.1"]]

/-- Fixture: the state produced by running update_user_data on c5Users
from c5State; the 9.9.9.9 entry survives and 1.1.1.1 is appended with the
fresh uuid 6. -/
def c5After : MonitorState :=
  { users_data :=
      [("9.9.9.9", { uuid := 5, virtual_ip := "10.8.0.9", real_ip := "9.9.9.9", common_name := "bob" }),
       ("1.1.1.1", { uuid := 6, virtual_ip := "10.8.0.2", real_ip := "1.1.1.1", common_name := "alice" })],
    active_processes := [], nextUuid := 7, nextPid := 0, startedPids := [], terminatedPids := [] }

/-- Fixture: a supervisor state in which a capture entry (pid 0) already
exists for 1.1.1.1. -/
def c6State : MonitorState :=
  { users_data := [],
    active_processes :=
      [("1.1.1.1", { pid := 0, virtual_ip := "10.8.0.2", uuid := 5, real_ip := "1.1.1.1" })],
    nextUuid := 0, nextPid := 1, startedPids := [0], terminatedPids := [] }

/-- Fixture: a snapshot session list containing only 1.1.1.1. -/
def c6Users : List (List String) := [["10.8.0.2", "alice", "1.1.1.1"]]

/-- Fixture: a state where 1.1.1.1 has both a registry entry and a live
capture entry, as after a completed sync. -/
def c6SyncState : MonitorState :=
  { users_data :=
      [("1.1.1.1", { uuid := 0, virtual_ip := "10.8.0.2", real_ip := "1.1.1.1", common_name := "alice" })],
    active_processes :=
      [("1.1.1.1", { pid := 0, virtual_ip := "10.8.0.2", uuid := 0, real_ip := "1.1.1.1" })],
    nextUuid := 1, nextPid := 1, startedPids := [0], terminatedPids := [] }

/-- Fixture: the snapshot lines used for the idempotence witness. -/
def idemLines : List String := [statusHeader, "10.8.0.2,alice,1.1.1.1", globalStats]

/-- Fixture: the empty initial state of the supervisor and registry. -/
def idemInit : MonitorState :=
  { users_data := [], active_processes := [], nextUuid := 0, nextPid := 0,
    startedPids := [], terminatedPids := [] }

/-- Fixture: the state after one update_user_monitoring pass on idemLines
from idemInit. -/
def idemS1 : MonitorState :=
  { users_data :=
      [("1.1.1.1", { uuid := 0, virtual_ip := "10.8.0.2", real_ip := "1.1.1.1", common_name := "alice" })],
    active_processes :=
      [("1.1.1.1", { pid := 0, virtual_ip := "10.8.0.2", uuid := 0, real_ip := "1.1.1.1" })],
    nextUuid := 1, nextPid := 1, startedPids := [0], terminatedPids := [] }

/-- Fixture: the state after a second identical update_user_monitoring
pass; only the registry uuid and the uuid supply moved. -/
def idemS2 : MonitorState :=
  { users_data :=
      [("1.1.1.1", { uuid := 1, virtual_ip := "10.8.0.2", real_ip := "1.1.1.1", common_name := "alice" })],
    active_processes :=
      [("1.1.1.1", { pid := 0, virtual_ip := "10.8.0.2", uuid := 0, real_ip := "1.1.1.1" })],
    nextUuid := 2, nextPid := 1, startedPids := [0], terminatedPids := [] }

/-- Fixture: process data of a session whose virtual address is
10.8.0.2. -/
def c8Pd : ProcessData :=
  { pid := 0, virtual_ip := "10.8.0.2", uuid := 3, real_ip := "1.1.1.1" }

/-- Fixture: a resolver oracle that always succeeds. -/
def c8Resolve : String → ResolveOutcome :=
  fun _ => ResolveOutcome.resolved "example.com"

/-- Fixture: a tcpdump output line whose destination field is the
session's own virtual address 10.8.0.2. -/
def c8Output : String := "12:00:00.1 IP 1.1.1.1.50000 > 10.8.0.2.443: Flags"

/-- Fixture: process data used for the lookup-failure claims. -/
def c9Pd : ProcessData :=
  { pid := 1, virtual_ip := "10.8.0.2", uuid := 4, real_ip := "1.1.1.1" }

/-- Fixture: a tcpdump output line with the valid non-self destination
93.184.216.34. -/
def c9Output : String := "12:00:00.1 IP 1.1.1.1.50000 > 93.184.216.34.443: Flags"

/-- Lookup after a dict assignment: the assigned key reads back the new
value, every other key is unchanged. -/
theorem dictLookup_insert {α : Type} (d : List (String × α)) (k k' : String) (v : α) :
    dictLookup (dictInsert d k v) k' = if k = k' then some v else dictLookup d k' := by
  induction d with
  | nil => simp [dictInsert, dictLookup]
  | cons hd tl ih =>
    obtain ⟨a, b⟩ := hd
    by_cases hak : a = k
    · subst hak
      simp only [dictInsert, if_pos rfl, dictLookup]
      by_cases hk' : a = k'
      · simp [hk']
      · simp [hk', dictLookup]
    · simp only [dictInsert, if_neg hak, dictLookup, ih]
      by_cases ha' : a = k'
      · subst ha'
        have hk : ¬(k = a) := fun h => hak h.symm
        simp [hk]
      · simp [ha']

/-- Membership after a dict assignment. -/
theorem dictContains_insert {α : Type} (d : List (String × α)) (k k' : String) (v : α) :
    dictContains (dictInsert d k v) k' = (decide (k = k') || dictContains d k') := by
  by_cases h : k = k' <;> simp [dictContains, dictLookup_insert, h]

/-- The sync pass leaves a stale capture entry alive: starting from a
state whose only capture is for 5.5.5.5 and a snapshot whose only session
is 1.1.1.1, update_user_monitoring returns a state whose key set is both
addresses — not the snapshot set — and no termination was ever
requested.  (C1) -/
theorem update_user_monitoring_keeps_stale_entry :
    (update_user_monitoring c1Lines c1State).map
        (fun s => (dictKeys s.active_processes, s.terminatedPids))
      = some (["5.5.5.5", "1.1.1.1"], []) := by decide

/-- A reconciliation tick regenerates the uuid of an entry whose real
address is still present: the entry for 1.1.1.1 had uuid 0 before the
tick and uuid 1 after it.  (C2) -/
theorem update_user_data_regenerates_uuid :
    (update_user_data c2Users c2State).map
        (fun s => (dictLookup s.users_data "1.1.1.1").map UserEntry.uuid) = some (some 1)
    ∧ (dictLookup c2State.users_data "1.1.1.1").map UserEntry.uuid = some 0 := by
  exact ⟨by decide, by decide⟩

/-- Stopping a present address requests termination of its process (pid 7
is recorded) but the entry survives in active_processes, because the
nonexistent thread.stop() raises before the deletion.  (C3) -/
theorem stop_user_traffic_monitoring_entry_not_removed :
    (stop_user_traffic_monitoring "1.1.1.1" c3State).terminatedPids = [7]
    ∧ dictContains (stop_user_traffic_monitoring "1.1.1.1" c3State).active_processes "1.1.1.1"
        = true := by
  exact ⟨by decide, by decide⟩

/-- A registry entry absent from the snapshot session list survives the
reconciliation pass: 9.9.9.9 is still a key afterwards.  (C5
counterexample) -/
theorem update_user_data_retains_absent_entry :
    (update_user_data c5Users c5State).map (fun s => dictContains s.users_data "9.9.9.9")
      = some true := by decide

/-- Calling monitor_user_traffic for an address that already has a
capture entry is not a no-op: a second process (pid 1) is launched and
the existing entry (pid 0) is overwritten.  (C6 counterexample) -/
theorem monitor_user_traffic_not_noop_when_present :
    (monitor_user_traffic 42 "1.1.1.1" "10.8.0.2" c6State).startedPids = [1, 0]
    ∧ dictLookup (monitor_user_traffic 42 "1.1.1.1" "10.8.0.2" c6State).active_processes "1.1.1.1"
        = some { pid := 1, virtual_ip := "10.8.0.2", uuid := 42, real_ip := "1.1.1.1" }
    ∧ dictLookup c6State.active_processes "1.1.1.1"
        = some { pid := 0, virtual_ip := "10.8.0.2", uuid := 5, real_ip := "1.1.1.1" } := by
  exact ⟨by decide, by decide, by decide⟩

/-- A reverse-lookup failure other than socket.herror is not converted to
the N/A marker: it escapes get_hostname_from_ip, so a line with a valid
non-self destination produces no visit record and ends the reader task.
(C9 counterexample) -/
theorem gaierror_aborts_reader_task :
    get_hostname_from_ip ResolveOutcome.otherLookupError = none
    ∧ traffic_line_step c9Pd (fun _ => ResolveOutcome.otherLookupError) c9Output
        = LineOutcome.readerAborted := by
  exact ⟨rfl, by decide⟩

/-- A crash between the truncating open and the completed json.dump
leaves the users file empty — neither the prior content nor the new
content.  (C10 counterexample) -/
theorem direct_write_crash_truncates :
    crashDuringWrite "old" (directWriteSteps "new") 1 = ""
    ∧ ("old" : String) ≠ "" ∧ ("new" : String) ≠ "" := by
  exact ⟨rfl, by decide, by decide⟩

/-- The registry write is a plain in-place overwrite: a crash before the
open leaves the prior content, a crash after the truncating open leaves
an empty file, and only a crash-free write yields the new content.  (C10
amended) -/
theorem direct_write_semantics (prior content : String) :
    crashDuringWrite prior (directWriteSteps content) 0 = prior
    ∧ crashDuringWrite prior (directWriteSteps content) 1 = ""
    ∧ runWriteSteps prior (directWriteSteps content) = content := by
  refine ⟨rfl, rfl, ?_⟩
  show ("" : String) ++ content = content
  obtain ⟨l⟩ := content
  rfl

/-- A capture output line whose extracted destination equals the
session's own virtual address is discarded: no visit record is produced
and no visit log line is emitted.  (C8) -/
theorem traffic_line_self_destination_suppressed (pd : ProcessData)
    (resolve : String → ResolveOutcome) (output : String)
    (h : extract_website output = some pd.virtual_ip) :
    traffic_line_step pd resolve output = LineOutcome.skipped := by
  unfold traffic_line_step
  rw [h]
  simp

/-- Witness: a concrete line destined to the session's own virtual
address is suppressed. -/
theorem traffic_line_self_destination_suppressed_witness :
    traffic_line_step c8Pd c8Resolve c8Output = LineOutcome.skipped :=
  traffic_line_self_destination_suppressed c8Pd c8Resolve c8Output (by decide)

/-- A socket.herror lookup failure is converted to the N/A marker and the
visit record is still produced for a valid non-self destination, while
any other lookup exception ends the reader task.  (C9 amended) -/
theorem herror_lookup_failure_still_records (pd : ProcessData) (output website : String)
    (h1 : extract_website output = some website) (h2 : website ≠ pd.virtual_ip) :
    traffic_line_step pd (fun _ => ResolveOutcome.hostNotFound) output
      = LineOutcome.recorded
          { real_ip := pd.real_ip, virtual_ip := pd.virtual_ip, uuid := pd.uuid,
            website := website ++ "/" ++ "N/A" }
    ∧ traffic_line_step pd (fun _ => ResolveOutcome.otherLookupError) output
      = LineOutcome.readerAborted := by
  unfold traffic_line_step
  rw [h1]
  simp [h2, get_hostname_from_ip]

/-- Witness: on a concrete non-self destination a herror failure still
yields a record with the N/A marker, and a gaierror-style failure ends
the reader task. -/
theorem herror_lookup_failure_still_records_witness :
    traffic_line_step c9Pd (fun _ => ResolveOutcome.hostNotFound) c9Output
      = LineOutcome.recorded
          { real_ip := c9Pd.real_ip, virtual_ip := c9Pd.virtual_ip, uuid := c9Pd.uuid,
            website := "93.184.216.34" ++ "/" ++ "N/A" }
    ∧ traffic_line_step c9Pd (fun _ => ResolveOutcome.otherLookupError) c9Output
      = LineOutcome.readerAborted :=
  herror_lookup_failure_still_records c9Pd c9Output "93.184.216.34" (by decide) (by decide)

/-- Helper: the start loop of update_user_monitoring is a no-op whenever
every row is well-formed, has a registry entry, and its address already
has a capture entry. -/
theorem startLoop_ready_aux (us : List (List String)) (s : MonitorState)
    (h : ∀ u ∈ us, rowReady s u = true) :
    startMonitoringLoop us s = some s := by
  induction us with
  | nil => rfl
  | cons u rest ih =>
    have hu := h u (List.mem_cons_self u rest)
    cases hr : rowFields u with
    | none => simp [rowReady, hr] at hu
    | some t =>
      obtain ⟨v, c, r⟩ := t
      simp only [rowReady, hr, Bool.and_eq_true] at hu
      obtain ⟨e, he⟩ := Option.isSome_iff_exists.mp hu.1
      simp only [startMonitoringLoop, hr, he, hu.2, if_true]
      exact ih (fun w hw => h w (List.mem_cons_of_mem u hw))

/-- The sync start loop never launches for an address that already has a
capture entry: when every session row is well-formed, registered, and
already monitored, the whole start loop leaves the state untouched —
monitor_user_traffic is reached only for addresses absent from
active_processes.  (C6 amended) -/
theorem startMonitoringLoop_skips_present (us : List (List String)) (s : MonitorState)
    (h : ∀ u ∈ us, rowReady s u = true) :
    startMonitoringLoop us s = some s :=
  startLoop_ready_aux us s h

/-- Witness: a concrete synced state passes the start loop unchanged. -/
theorem startMonitoringLoop_skips_present_witness :
    startMonitoringLoop c6Users c6SyncState = some c6SyncState :=
  startMonitoringLoop_skips_present c6Users c6SyncState (by decide)

/-- The reconciliation pass is upsert-only: a key absent from the
snapshot addresses keeps its exact prior entry, and a key is present
afterwards exactly when it was present before or occurs in the snapshot.
(C5 amended) -/
theorem update_user_data_upsert_only (us : List (List String)) (s s' : MonitorState)
    (h : update_user_data us s = some s') (k : String) :
    (k ∉ snapshotAddresses us → dictLookup s'.users_data k = dictLookup s.users_data k)
    ∧ dictContains s'.users_data k
        = (dictContains s.users_data k || decide (k ∈ snapshotAddresses us)) := by
  induction us generalizing s with
  | nil =>
    simp only [update_user_data, Option.some.injEq] at h
    subst h
    simp [snapshotAddresses]
  | cons u rest ih =>
    cases hr : rowFields u with
    | none => simp [update_user_data, hr] at h
    | some t =>
      obtain ⟨v, c, r⟩ := t
      simp only [update_user_data, hr] at h
      have ih' := ih _ h
      have haddr : snapshotAddresses (u :: rest) = r :: snapshotAddresses rest := by
        simp [snapshotAddresses, List.filterMap_cons, hr]
      constructor
      · intro hk
        rw [haddr] at hk
        have hk1 : k ∉ snapshotAddresses rest := fun hm => hk (List.mem_cons_of_mem _ hm)
        have hkr : ¬(r = k) := fun hrk => hk (by rw [hrk]; exact List.mem_cons_self _ _)
        rw [ih'.1 hk1]
        simp [dictLookup_insert, hkr]
      · rw [ih'.2, haddr]
        simp only [dictContains_insert]
        by_cases h1 : r = k
        · subst h1
          simp [List.mem_cons]
        · have h1' : ¬(k = r) := fun hkr => h1 hkr.symm
          simp [h1, h1', List.mem_cons, Bool.or_assoc, Bool.or_left_comm]

/-- Witness: the retained 9.9.9.9 entry reads back unchanged after a pass
whose snapshot does not contain it, and membership afterwards is the
stated union. -/
theorem update_user_data_upsert_only_witness :
    dictLookup c5After.users_data "9.9.9.9" = dictLookup c5State.users_data "9.9.9.9"
    ∧ dictContains c5After.users_data "9.9.9.9"
        = (dictContains c5State.users_data "9.9.9.9"
            || decide ("9.9.9.9" ∈ snapshotAddresses c5Users)) :=
  ⟨(update_user_data_upsert_only c5Users c5State c5After (by decide) "9.9.9.9").1 (by decide),
   (update_user_data_upsert_only c5Users c5State c5After (by decide) "9.9.9.9").2⟩

/-- Helper: lines scanned before the header, none of which is the header,
are all ignored. -/
theorem collectLines_skip (pre rest : List String) (hpre : statusHeader ∉ pre) :
    collectLines (pre ++ rest) false = collectLines rest false := by
  induction pre with
  | nil => rfl
  | cons l pre ih =>
    have hl : ¬(l = statusHeader) := by
      intro h
      exact hpre (by rw [← h]; exact List.mem_cons_self _ _)
    have hpre' : statusHeader ∉ pre := fun hm => hpre (List.mem_cons_of_mem _ hm)
    simp only [List.cons_append, collectLines, if_neg hl, Bool.false_eq_true, if_false]
    exact ih hpre'

/-- Helper: while collecting, every line up to the trailer that is
neither the header nor the trailer is collected after port stripping. -/
theorem collectLines_collect (mid rest : List String)
    (hH : statusHeader ∉ mid) (hT : globalStats ∉ mid)
    (hwf : ∀ l ∈ mid, (stripPortField l).isSome) :
    collectLines (mid ++ rest) true
      = (collectLines rest true).map (fun r => mid.map stripPortTotal ++ r) := by
  induction mid with
  | nil => cases h : collectLines rest true <;> simp [h]
  | cons l mid ih =>
    have hl : ¬(l = statusHeader) := by
      intro h
      exact hH (by rw [← h]; exact List.mem_cons_self _ _)
    have hg : ¬(l = globalStats) := by
      intro h
      exact hT (by rw [← h]; exact List.mem_cons_self _ _)
    obtain ⟨x, hx⟩ := Option.isSome_iff_exists.mp (hwf l (List.mem_cons_self _ _))
    have htot : stripPortTotal l = x := by rw [stripPortTotal, hx]; rfl
    have ih' := ih (fun hm => hH (List.mem_cons_of_mem _ hm))
      (fun hm => hT (List.mem_cons_of_mem _ hm))
      (fun w hw => hwf w (List.mem_cons_of_mem _ hw))
    simp only [List.cons_append, collectLines, if_neg hl, if_neg hg, hx]
    cases h : collectLines rest true <;> simp [ih', h, htot]

/-- Helper: the trailer stops collection, and with no further header the
remaining lines are all ignored. -/
theorem collectLines_trailer (post : List String) (hpost : statusHeader ∉ post) :
    collectLines (globalStats :: post) true = some [] := by
  have h1 : ¬(globalStats = statusHeader) := by decide
  have h2 := collectLines_skip post [] hpost
  rw [List.append_nil] at h2
  simp [collectLines, h1, h2]

/-- The parser collects exactly the rows strictly between the header row
and the trailer row — rows before the header and after the trailer are
ignored — and strips the trailing port from the real-address field; on
the section 8 example it yields one row whose
(virtualAddress, commonName, realAddress) projection is exactly
(10.8.0.2, alice, 203.0.113.5).  (C4) -/
theorem parse_openvpn_users_window_and_example
    (pre mid post : List String)
    (hpre : statusHeader ∉ pre) (hmidH : statusHeader ∉ mid) (hmidT : globalStats ∉ mid)
    (hpost : statusHeader ∉ post)
    (hwf : ∀ l ∈ mid, (stripPortField l).isSome) :
    parse_openvpn_users (pre ++ statusHeader :: (mid ++ globalStats :: post))
      = some (mid.map (fun l => pySplit ',' (stripPortTotal l)))
    ∧ parse_openvpn_users c4Lines = some [["10.8.0.2", "alice", "203.0.113.5", "Mon Jan 1"]]
    ∧ (parse_openvpn_users c4Lines).map
        (fun us => us.map (fun u => (u.getD 0 "", u.getD 1 "", u.getD 2 "")))
        = some [("10.8.0.2", "alice", "203.0.113.5")] := by
  refine ⟨?_, by decide, by decide⟩
  rw [parse_openvpn_users, collectLines_skip _ _ hpre]
  have hstep : collectLines (statusHeader :: (mid ++ globalStats :: post)) false
      = collectLines (mid ++ globalStats :: post) true := by
    simp [collectLines]
  rw [hstep, collectLines_collect _ _ hmidH hmidT hwf, collectLines_trailer _ hpost]
  simp

/-- Witness: the window theorem applied to the section 8 shape with one
junk row on each side. -/
theorem parse_openvpn_users_window_and_example_witness :
    parse_openvpn_users
        (["OpenVPN CLIENT LIST"]
          ++ statusHeader :: (["10.8.0.2,alice,203.0.113.5:54321,Mon Jan 1"]
          ++ globalStats :: ["Max bcast,0"]))
      = some (["10.8.0.2,alice,203.0.113.5:54321,Mon Jan 1"].map
          (fun l => pySplit ',' (stripPortTotal l)))
    ∧ parse_openvpn_users c4Lines = some [["10.8.0.2", "alice", "203.0.113.5", "Mon Jan 1"]]
    ∧ (parse_openvpn_users c4Lines).map
        (fun us => us.map (fun u => (u.getD 0 "", u.getD 1 "", u.getD 2 "")))
        = some [("10.8.0.2", "alice", "203.0.113.5")] :=
  parse_openvpn_users_window_and_example
    ["OpenVPN CLIENT LIST"] ["10.8.0.2,alice,203.0.113.5:54321,Mon Jan 1"] ["Max bcast,0"]
    (by decide) (by decide) (by decide) (by decide) (by decide)

/-- Helper: the registry pass touches only users_data and the uuid
supply. -/
theorem update_user_data_preserves (us : List (List String)) :
    ∀ s s', update_user_data us s = some s' →
      s'.active_processes = s.active_processes ∧ s'.startedPids = s.startedPids
      ∧ s'.terminatedPids = s.terminatedPids ∧ s'.nextPid = s.nextPid := by
  induction us with
  | nil =>
    intro s s' h
    simp only [update_user_data, Option.some.injEq] at h
    subst h
    exact ⟨rfl, rfl, rfl, rfl⟩
  | cons u rest ih =>
    intro s s' h
    cases hr : rowFields u with
    | none => simp [update_user_data, hr] at h
    | some t =>
      obtain ⟨v, c, r⟩ := t
      simp only [update_user_data, hr] at h
      have hpres := ih _ _ h
      exact hpres

/-- Helper: a successful registry pass implies every row had its three
fields. -/
theorem update_user_data_rows_ok (us : List (List String)) :
    ∀ s s', update_user_data us s = some s' → ∀ u ∈ us, (rowFields u).isSome := by
  induction us with
  | nil => intro s s' _ u hu; cases hu
  | cons u rest ih =>
    intro s s' h w hw
    cases hr : rowFields u with
    | none => simp [update_user_data, hr] at h
    | some t =>
      obtain ⟨v, c, r⟩ := t
      simp only [update_user_data, hr] at h
      rcases List.mem_cons.mp hw with hw | hw
      · subst hw; simp [hr]
      · exact ih _ _ h w hw

/-- Helper: the registry pass never removes a key. -/
theorem update_user_data_contains_mono (us : List (List String)) (k : String) :
    ∀ s s', update_user_data us s = some s' →
      dictContains s.users_data k = true → dictContains s'.users_data k = true := by
  induction us with
  | nil =>
    intro s s' h hk
    simp only [update_user_data, Option.some.injEq] at h
    subst h
    exact hk
  | cons u rest ih =>
    intro s s' h hk
    cases hr : rowFields u with
    | none => simp [update_user_data, hr] at h
    | some t =>
      obtain ⟨v, c, r⟩ := t
      simp only [update_user_data, hr] at h
      refine ih _ _ h ?_
      simp [dictContains_insert, hk]

/-- Helper: after a successful registry pass every row address is a
registry key. -/
theorem update_user_data_contains_addr (us : List (List String)) :
    ∀ s s', update_user_data us s = some s' →
      ∀ u ∈ us, ∀ v c r, rowFields u = some (v, c, r) →
        dictContains s'.users_data r = true := by
  induction us with
  | nil => intro s s' _ u hu; cases hu
  | cons u rest ih =>
    intro s s' h w hw v c r hwrow
    cases hr : rowFields u with
    | none => simp [update_user_data, hr] at h
    | some t =>
      obtain ⟨v0, c0, r0⟩ := t
      simp only [update_user_data, hr] at h
      rcases List.mem_cons.mp hw with hweq | hwmem
      · subst hweq
        rw [hr] at hwrow
        simp only [Option.some.injEq, Prod.mk.injEq] at hwrow
        obtain ⟨_, _, hrr⟩ := hwrow
        subst hrr
        refine update_user_data_contains_mono rest r0 _ _ h ?_
        simp [dictContains_insert]
      · exact ih _ _ h w hwmem v c r hwrow

/-- Helper: the start loop never removes a capture key. -/
theorem startMonitoringLoop_contains_mono (us : List (List String)) (k : String) :
    ∀ s s', startMonitoringLoop us s = some s' →
      dictContains s.active_processes k = true → dictContains s'.active_processes k = true := by
  induction us with
  | nil =>
    intro s s' h hk
    simp only [startMonitoringLoop, Option.some.injEq] at h
    subst h
    exact hk
  | cons u rest ih =>
    intro s s' h hk
    cases hr : rowFields u with
    | none => simp [startMonitoringLoop, hr] at h
    | some t =>
      obtain ⟨v, c, r⟩ := t
      cases he : dictLookup s.users_data r with
      | none =>
        simp only [startMonitoringLoop, hr, he] at h
        exact Option.noConfusion h
      | some e =>
        simp only [startMonitoringLoop, hr, he] at h
        cases hc : dictContains s.active_processes r with
        | true =>
          rw [hc] at h
          simp only [if_true] at h
          exact ih _ _ h hk
        | false =>
          rw [hc] at h
          simp only [Bool.false_eq_true, if_false] at h
          refine ih _ _ h ?_
          simp [monitor_user_traffic, dictContains_insert, hk]

/-- Helper: after a successful start loop every row address has a capture
entry. -/
theorem startMonitoringLoop_contains_addr (us : List (List String)) :
    ∀ s s', startMonitoringLoop us s = some s' →
      ∀ u ∈ us, ∀ v c r, rowFields u = some (v, c, r) →
        dictContains s'.active_processes r = true := by
  induction us with
  | nil => intro s s' _ u hu; cases hu
  | cons u rest ih =>
    intro s s' h w hw v c r hwrow
    cases hr : rowFields u with
    | none => simp [startMonitoringLoop, hr] at h
    | some t =>
      obtain ⟨v0, c0, r0⟩ := t
      cases he : dictLookup s.users_data r0 with
      | none =>
        simp only [startMonitoringLoop, hr, he] at h
        exact Option.noConfusion h
      | some e =>
        simp only [startMonitoringLoop, hr, he] at h
        rcases List.mem_cons.mp hw with hweq | hwmem
        · subst hweq
          rw [hr] at hwrow
          simp only [Option.some.injEq, Prod.mk.injEq] at hwrow
          obtain ⟨_, _, hrr⟩ := hwrow
          subst hrr
          cases hc : dictContains s.active_processes r0 with
          | true =>
            rw [hc] at h
            simp only [if_true] at h
            exact startMonitoringLoop_contains_mono rest r0 _ _ h hc
          | false =>
            rw [hc] at h
            simp only [Bool.false_eq_true, if_false] at h
            refine startMonitoringLoop_contains_mono rest r0 _ _ h ?_
            simp [monitor_user_traffic, dictContains_insert]
        · cases hc : dictContains s.active_processes r0 with
          | true =>
            rw [hc] at h
            simp only [if_true] at h
            exact ih _ _ h w hwmem v c r hwrow
          | false =>
            rw [hc] at h
            simp only [Bool.false_eq_true, if_false] at h
            exact ih _ _ h w hwmem v c r hwrow

/-- Helper: stopping an address with no capture entry changes nothing. -/
theorem stop_absent_noop (r : String) (s : MonitorState)
    (h : dictContains s.active_processes r = false) :
    stop_user_traffic_monitoring r s = s := by
  have hl : dictLookup s.active_processes r = none := by
    cases hl : dictLookup s.active_processes r with
    | none => rfl
    | some pd => rw [dictContains, hl] at h; simp at h
  simp [stop_user_traffic_monitoring, hl]

/-- Helper: the stop loop of update_user_monitoring never changes the
state — it only ever calls stop on addresses that are absent from
active_processes, where stop is a no-op. -/
theorem stopMonitoringLoop_noop (us : List (List String)) (s : MonitorState)
    (h : ∀ u ∈ us, (rowFields u).isSome) :
    stopMonitoringLoop us s = some s := by
  induction us with
  | nil => rfl
  | cons u rest ih =>
    have hu := h u (List.mem_cons_self u rest)
    cases hr : rowFields u with
    | none => rw [hr] at hu; simp at hu
    | some t =>
      obtain ⟨v, c, r⟩ := t
      have ih' := ih (fun w hw => h w (List.mem_cons_of_mem u hw))
      cases hc : dictContains s.active_processes r with
      | true => simp only [stopMonitoringLoop, hr, hc, if_true]; exact ih'
      | false =>
        have hstop := stop_absent_noop r s hc
        simp only [stopMonitoringLoop, hr, hc, Bool.false_eq_true, if_false, hstop]
        exact ih'

/-- Calling update_user_monitoring twice on the same snapshot is
idempotent on the supervisor: the second call performs no additional
process starts, no additional termination requests, and leaves
active_processes unchanged.  (C7) -/
theorem update_user_monitoring_idempotent (lines : List String) (s s1 s2 : MonitorState)
    (h1 : update_user_monitoring lines s = some s1)
    (h2 : update_user_monitoring lines s1 = some s2) :
    s2.active_processes = s1.active_processes ∧ s2.startedPids = s1.startedPids
    ∧ s2.terminatedPids = s1.terminatedPids := by
  cases hp : parse_openvpn_users lines with
  | none =>
    simp only [update_user_monitoring, hp] at h1
    exact Option.noConfusion h1
  | some us =>
    simp only [update_user_monitoring, hp] at h1 h2
    cases hd1 : update_user_data us s with
    | none =>
      simp only [hd1] at h1
      exact Option.noConfusion h1
    | some t1 =>
      simp only [hd1] at h1
      cases hs1 : startMonitoringLoop us t1 with
      | none =>
        simp only [hs1] at h1
        exact Option.noConfusion h1
      | some t2 =>
        simp only [hs1] at h1
        have hrows : ∀ u ∈ us, (rowFields u).isSome := update_user_data_rows_ok us s t1 hd1
        rw [stopMonitoringLoop_noop us t2 hrows] at h1
        have ht2 := Option.some.inj h1
        rw [ht2] at hs1
        cases hd2 : update_user_data us s1 with
        | none =>
          simp only [hd2] at h2
          exact Option.noConfusion h2
        | some t1' =>
          simp only [hd2] at h2
          have hpres := update_user_data_preserves us s1 t1' hd2
          have haddr := startMonitoringLoop_contains_addr us t1 s1 hs1
          have hud := update_user_data_contains_addr us s1 t1' hd2
          have hready : ∀ u ∈ us, rowReady t1' u = true := by
            intro u hu
            obtain ⟨⟨v, c, r⟩, hrw⟩ := Option.isSome_iff_exists.mp (hrows u hu)
            have hx := hud u hu v c r hrw
            have hy := haddr u hu v c r hrw
            simp only [rowReady, hrw, Bool.and_eq_true]
            constructor
            · exact hx
            · rw [hpres.1]
              exact hy
          simp only [startLoop_ready_aux us t1' hready] at h2
          rw [stopMonitoringLoop_noop us t1' hrows] at h2
          have ht1' := Option.some.inj h2
          subst ht1'
          exact ⟨hpres.1, hpres.2.1, hpres.2.2.1⟩

/-- Witness: two identical passes on a one-session snapshot from the
empty state; the second pass left active_processes and both journals of
the first pass unchanged. -/
theorem update_user_monitoring_idempotent_witness :
    idemS2.active_processes = idemS1.active_processes
    ∧ idemS2.startedPids = idemS1.startedPids
    ∧ idemS2.terminatedPids = idemS1.terminatedPids :=
  update_user_monitoring_idempotent idemLines idemInit idemS1 idemS2 (by decide) (by decide)

end OvpnMonitor
